import Mathlib

/-!
Shallow embedding of `src/main.py` (a FastAPI service wrapping the yt-dlp
extractor) and proofs about its resolution pipeline.

Modelling conventions:
* Python dict fields that may be absent (or whose absence and `None` value are
  indistinguishable to the code) are `Option` fields; `d.get(k)` is the field
  itself, `d.get(k, v)` is `Option.getD v`.
* Python truthiness of `a or b` on numbers / strings is modelled explicitly
  (`pyOrInt`, `pyOrStr`): `None` and `0` and `""` are falsy.
* External effects (DNS lookups, HTTP, the extractor, the filesystem) are a
  `World` record fixing every outcome; each embedded function returns its
  value together with the list of observable `Event`s (cookie-file creation,
  cookie-file deletion attempts, extractor invocations) in program order.
* Python exceptions of a called primitive are `Except.error` results; a
  `try/except` in the source is the corresponding `match`.  A source function
  that catches everything is therefore total here, and a raised
  `HTTPException` is an `ApiError` value.
-/

/-- Python `a or b` for optional integers: `None` and `0` are falsy, so the
left value is kept only when it is present and non-zero.  This is the exact
semantics of `fmt.get('filesize') or fmt.get('filesize_approx')`. -/
def pyOrInt (a b : Option Int) : Option Int :=
  match a with
  | some v => if v = 0 then b else some v
  | none => b

/-- Python `a or b` for optional strings: `None` and `""` are falsy.  This is
the exact semantics of `best_thumbnail or default_thumbnail`. -/
def pyOrStr (a b : Option String) : Option String :=
  match a with
  | some s => if s = "" then b else some s
  | none => b

/-- One raw format descriptor from the extractor.  `format_id` and `url` are
indexed directly (`fmt['format_id']`, `fmt['url']`) by the source, so they are
required fields; all the `.get(...)` fields are optional. -/
structure FormatDescriptor where
  format_id : String
  resolution : Option String
  filesize : Option Int
  filesize_approx : Option Int
  acodec : Option String
  vcodec : Option String
  ext : Option String
  abr : Option Int
  url : String
deriving DecidableEq

/-- Projection of a combined (audio+video) format as built by the list
comprehension in `extract_video_info` (src/main.py lines 272-280). -/
structure CombinedFormat where
  format_id : String
  resolution : String
  filesize : Option Int
  url : String
deriving DecidableEq

/-- The list comprehension at src/main.py lines 272-280: one left-to-right
pass keeping every `fmt` with `fmt.get('acodec') != 'none' and
fmt.get('vcodec') != 'none'` (note: an absent codec is `None`, which is
`!= 'none'`), projected to the four output fields. -/
def audio_video_formats (formats : List FormatDescriptor) : List CombinedFormat :=
  formats.foldr
    (fun fmt acc =>
      if fmt.acodec ≠ some "none" ∧ fmt.vcodec ≠ some "none" then
        { format_id := fmt.format_id
          resolution := fmt.resolution.getD "N/A"
          filesize := pyOrInt fmt.filesize fmt.filesize_approx
          url := fmt.url } :: acc
      else acc)
    []

/-- The generator filter at src/main.py line 283: `fmt.get('acodec') != 'none'
and fmt.get('vcodec') == 'none' and fmt.get('ext') == 'm4a'`. -/
def isAudioCandidate (fmt : FormatDescriptor) : Bool :=
  decide (fmt.acodec ≠ some "none" ∧ fmt.vcodec = some "none" ∧ fmt.ext = some "m4a")

/-- The `key` function of the `max` call at src/main.py line 284:
`x.get('abr', 0)`. -/
def abrKey (fmt : FormatDescriptor) : Int :=
  fmt.abr.getD 0

/-- Python `max(iterable, key=key, default=None)`: the first element is the
initial best and a later element replaces it only when its key is strictly
greater, so the first maximal element wins and an empty iterable gives the
default `None`. -/
def pyMax {α : Type} (key : α → Int) : List α → Option α
  | [] => none
  | x :: xs => some (xs.foldl (fun best y => if key best < key y then y else best) x)

/-- The `max(...)` call at src/main.py lines 282-286 selecting
`highest_audio`. -/
def highest_audio (formats : List FormatDescriptor) : Option FormatDescriptor :=
  pyMax abrKey (formats.filter isAudioCandidate)

/-- Value of the `bitrate` key of `highest_audio_info`: Python
`highest_audio.get('abr', 'Unknown')` is either the number or the literal
string `'Unknown'`, so it is a sum. -/
inductive Bitrate where
  | num : Int → Bitrate
  | str : String → Bitrate
deriving DecidableEq

/-- The `highest_audio_info` dict built at src/main.py lines 288-293. -/
structure AudioInfo where
  format_id : String
  bitrate : Bitrate
  filesize : Option Int
  url : String
deriving DecidableEq

/-- Construction of the `highest_audio_info` dict from the selected descriptor
(src/main.py lines 288-293): `bitrate` is `.get('abr', 'Unknown')`, `filesize`
is `.get('filesize') or .get('filesize_approx')`. -/
def mkAudioInfo (fmt : FormatDescriptor) : AudioInfo :=
  { format_id := fmt.format_id
    bitrate := match fmt.abr with
      | some n => Bitrate.num n
      | none => Bitrate.str "Unknown"
    filesize := pyOrInt fmt.filesize fmt.filesize_approx
    url := fmt.url }

/-- `highest_audio_info` as a function of the format list: the dict when a
candidate was selected, `None` otherwise (src/main.py lines 288-293). -/
def highest_audio_info (formats : List FormatDescriptor) : Option AudioInfo :=
  (highest_audio formats).map mkAudioInfo

/-- One entry of the raw result's thumbnail list; both fields are read with
`.get`, so both are optional. -/
structure ThumbnailDescriptor where
  url : Option String
  width : Option Int
deriving DecidableEq

/-- The thumbnail scan loop at src/main.py lines 261-268: state is
`(best_thumbnail, max_width)` starting at `(None, 0)`; an entry replaces the
state only when its width (`thumb.get('width', 0)`) is strictly greater than
the running maximum, and then `best_thumbnail` becomes `thumb.get('url')`
(possibly `None`). -/
def best_thumbnail_scan (thumbnails : List ThumbnailDescriptor) : Option String × Int :=
  thumbnails.foldl
    (fun acc thumb =>
      if acc.2 < thumb.width.getD 0 then (thumb.url, thumb.width.getD 0) else acc)
    (none, 0)

/-- The raw extractor result as read by `extract_video_info`: `title`,
`formats`, `thumbnails` and `thumbnail` are all read with `.get` and
defaulted. -/
structure VideoInfo where
  title : Option String
  formats : List FormatDescriptor
  thumbnails : List ThumbnailDescriptor
  thumbnail : Option String
deriving DecidableEq

/-- The JSON result dict built at src/main.py lines 295-300. -/
structure ResolvedMedia where
  title : String
  formats : List CombinedFormat
  highest_audio : Option AudioInfo
  thumbnail : Option String
deriving DecidableEq

/-- The pure processing of a successful raw extractor result inside
`extract_video_info` (src/main.py lines 256-300). -/
def extract_core (info : VideoInfo) : ResolvedMedia :=
  { title := info.title.getD "Unknown Title"
    formats := audio_video_formats info.formats
    highest_audio := highest_audio_info info.formats
    thumbnail := pyOrStr (best_thumbnail_scan info.thumbnails).1 info.thumbnail }

/-- Observable effects of one request, in program order. -/
inductive Event where
  | cookieCreated : String → Event
  | cookieDeleteAttempt : String → Event
  | extractorCall : String → Event
deriving DecidableEq

/-- The queries of the extractor calls in a trace, in order. -/
def extractorCalls : List Event → List String
  | [] => []
  | Event.cookieCreated _ :: es => extractorCalls es
  | Event.cookieDeleteAttempt _ :: es => extractorCalls es
  | Event.extractorCall q :: es => q :: extractorCalls es

/-- One entry of a flat search result: the `'url'` key may be absent
(`url = none`) or present with any value including `None`
(`url = some none`), because the source tests `'url' in first_entry` and then
returns `first_entry['url']` unchecked. -/
structure SearchEntry where
  url : Option (Option String)
deriving DecidableEq

/-- A flat search result dict: the `'entries'` key may be absent, and each
entry of the list may be `None` (modelled as `none`; an empty entry dict is
falsy too and behaves identically, so it is collapsed into the same case). -/
structure SearchDict where
  entries : Option (List (Option SearchEntry))
deriving DecidableEq

/-- Every external outcome one request can observe.  `primaryDns` is the
`socket.gethostbyname` result (its resolver failures raise `socket.gaierror`,
the `.error` case); `altDns` the explicit 8.8.8.8/8.8.4.4 lookup;
`extractResult` the yt-dlp `extract_info` outcome on a direct URL (`.ok none`
is a `None` result); `searchResponse` the outcome per search query string. -/
structure World where
  primaryDns : Except String String
  altDns : Except String String
  proxyEnv : Option String
  cookies : String
  cookieCreateOk : Bool
  cookieName : String
  unlinkOk : Bool
  httpStatus : Except String Nat
  extractResult : Except String (Option VideoInfo)
  searchResponse : String → Except String (Option SearchDict)

/-- Lines 32-38 of src/main.py: `socket.gethostbyname("www.youtube.com")`
inside `try/except socket.gaierror`, returning a `(bool, message)` pair.  The
catch of the resolver error is the `.error` branch, so the function is total:
no resolver failure escapes. -/
def test_dns_resolution (w : World) : Bool × String :=
  match w.primaryDns with
  | Except.ok _ => (true, "DNS resolution working")
  | Except.error e => (false, "DNS resolution failed: " ++ e)

/-- Lines 40-49 of src/main.py: the explicit-resolver lookup inside
`try/except Exception`, returning a `(bool, message)` pair; again total. -/
def try_alternative_dns (w : World) : Bool × String :=
  match w.altDns with
  | Except.ok addr => (true, "Alternative DNS works: " ++ addr)
  | Except.error e => (false, "Alternative DNS failed: " ++ e)

/-- Lines 51-64 of src/main.py: when the `YOUTUBE_COOKIES` environment value
is non-empty, write it to a fresh temporary file and return the path; a
creation failure is caught and yields `None`. -/
def create_cookie_file (w : World) : Option String × List Event :=
  if w.cookies = "" then (none, [])
  else if w.cookieCreateOk then (some w.cookieName, [Event.cookieCreated w.cookieName])
  else (none, [])

/-- The yt-dlp options dict assembled by `get_ydl_opts` (src/main.py lines
66-99) plus the extra keys individual call sites add. -/
structure YdlOpts where
  quiet : Bool
  user_agent : String
  socket_timeout : Nat
  retries : Nat
  fragment_retries : Nat
  extractor_retries : Nat
  file_access_retries : Nat
  sleep_interval : Nat
  max_sleep_interval : Nat
  force_ipv4 : Bool
  source_address : String
  proxy : Option String
  cookiefile : Option String
  extract_flat : Option Bool
  playlist_items : Option String
  no_warnings : Option Bool
deriving DecidableEq

/-- Lines 66-99 of src/main.py: the fixed `base_opts`, the optional `proxy`
key from the environment, and the optional `cookiefile` key from
`create_cookie_file`.  The DNS logging at the top of the function performs no
tracked effect. -/
def get_ydl_opts (w : World) : YdlOpts × List Event :=
  let cf := create_cookie_file w
  ({ quiet := true
     user_agent := "Mozilla/5.0 (Windows NT 10.0; Win64; x64) AppleWebKit/537.36 (KHTML, like Gecko) Chrome/120.0.0.0 Safari/537.36"
     socket_timeout := 30
     retries := 5
     fragment_retries := 5
     extractor_retries := 3
     file_access_retries := 3
     sleep_interval := 1
     max_sleep_interval := 5
     force_ipv4 := true
     source_address := "0.0.0.0"
     proxy := w.proxyEnv
     cookiefile := cf.1
     extract_flat := none
     playlist_items := none
     no_warnings := none }, cf.2)

/-- Lines 101-107 of src/main.py: if the opts carry a `cookiefile`, attempt
`os.unlink` on it inside `try/except Exception: pass`.  The swallowed
exception is the `.error` branch of `os.unlink`, so the function is total and
returns the same trace whether the deletion succeeded or failed. -/
def cleanup_cookie_file (w : World) (ydl_opts : YdlOpts) : List Event :=
  match ydl_opts.cookiefile with
  | some f =>
    match (if w.unlinkOk then Except.ok () else Except.error "unlink failed" : Except String Unit) with
    | Except.ok _ => [Event.cookieDeleteAttempt f]
    | Except.error _ => [Event.cookieDeleteAttempt f]
  | none => []

/-- The error a request can surface: the `HTTPException`s raised at lines
114, 150, 246 and 307 of src/main.py, by status code class. -/
inductive ApiError where
  | unavailable : String → ApiError
  | notFound : String → ApiError
  | extractionFailed : String → ApiError
deriving DecidableEq

/-- Success test of one search attempt (src/main.py lines 138-143): the
response is a dict containing a non-empty `'entries'` list, the first entry is
truthy and carries a `'url'` key; the returned value is `first_entry['url']`,
which may itself be `None`.  An exception during the attempt (`.error`) is
caught at line 145 and treated the same as an unusable response: fall through
to the next variant. -/
def attempt_success : Except String (Option SearchDict) → Option (Option String)
  | Except.error _ => none
  | Except.ok none => none
  | Except.ok (some d) =>
    match d.entries with
    | none => none
    | some [] => none
    | some (none :: _) => none
    | some (some e :: _) =>
      match e.url with
      | none => none
      | some v => some v

/-- The two query shapes tried by `search_video_by_title`
(src/main.py lines 127-130). -/
def search_queries (title : String) : List String :=
  ["ytsearch1:" ++ title, "ytsearch5:" ++ title]

/-- The `for search_query in search_queries` loop of src/main.py lines
132-153: each attempt calls the extractor; the first successful attempt
releases the cookie file and returns; after exhaustion the cookie file is
released and a 404 `HTTPException` is raised. -/
def search_loop (w : World) (ydl_opts : YdlOpts) (title : String) :
    List String → Except ApiError (Option String) × List Event
  | [] =>
    (Except.error (ApiError.notFound
      ("No videos found for \x27" ++ title ++
        "\x27. This might be due to network issues or the video not existing.")),
      cleanup_cookie_file w ydl_opts)
  | q :: qs =>
    match attempt_success (w.searchResponse q) with
    | some v => (Except.ok v, Event.extractorCall q :: cleanup_cookie_file w ydl_opts)
    | none =>
      let rest := search_loop w ydl_opts title qs
      (rest.1, Event.extractorCall q :: rest.2)

/-- Lines 109-153 of src/main.py: the DNS gate (503 before anything else),
the shared options augmented with `extract_flat`/`playlist_items`/
`no_warnings`, then the two-variant cascade. -/
def search_video_by_title (w : World) (title : String) :
    Except ApiError (Option String) × List Event :=
  match test_dns_resolution w with
  | (false, dns_msg) =>
    (Except.error (ApiError.unavailable
      ("DNS resolution failed for YouTube: " ++ dns_msg ++
        ". Please check your network connection or DNS settings.")), [])
  | (true, _) =>
    let go := get_ydl_opts w
    let ydl_opts := { go.1 with extract_flat := some true, playlist_items := some "1",
                                no_warnings := some true }
    let out := search_loop w ydl_opts title (search_queries title)
    (out.1, go.2 ++ out.2)

/-- Lines 241-307 of src/main.py: the DNS gate (503), the options with
`extract_flat: False`, one extractor call, then either the processed result
with cleanup, or a 500 `HTTPException` with cleanup.  A `None` extractor
result makes `info.get` raise inside the `try`, which the `except` turns into
the same 500 path. -/
def extract_video_info (w : World) (url : String) :
    Except ApiError ResolvedMedia × List Event :=
  match test_dns_resolution w with
  | (false, dns_msg) =>
    (Except.error (ApiError.unavailable ("DNS resolution failed: " ++ dns_msg)), [])
  | (true, _) =>
    let go := get_ydl_opts w
    let ydl_opts := { go.1 with extract_flat := some false }
    match w.extractResult with
    | Except.ok (some info) =>
      (Except.ok (extract_core info),
        go.2 ++ [Event.extractorCall url] ++ cleanup_cookie_file w ydl_opts)
    | Except.ok none =>
      (Except.error (ApiError.extractionFailed
        "Error extracting video info: \x27NoneType\x27 object has no attribute \x27get\x27"),
        go.2 ++ [Event.extractorCall url] ++ cleanup_cookie_file w ydl_opts)
    | Except.error e =>
      (Except.error (ApiError.extractionFailed ("Error extracting video info: " ++ e)),
        go.2 ++ [Event.extractorCall url] ++ cleanup_cookie_file w ydl_opts)

/-- Lines 212-238 of src/main.py: start from an empty list and extend it with
the fixed block of each failing dimension, in DNS, HTTP, extractor order. -/
def get_troubleshooting_recommendations (dns_works http_works ytdlp_works : Bool) :
    List String :=
  let recommendations : List String := []
  let recommendations :=
    if !dns_works then
      recommendations ++
        ["Check your internet connection",
         "Try using Google DNS (8.8.8.8, 8.8.4.4) or Cloudflare DNS (1.1.1.1)",
         "Flush your DNS cache",
         "Check if you\x27re behind a firewall or proxy that blocks YouTube"]
    else recommendations
  let recommendations :=
    if !http_works then
      recommendations ++
        ["Check if YouTube is accessible from your location",
         "Try using a VPN if YouTube is blocked",
         "Check proxy settings if you\x27re in a corporate environment"]
    else recommendations
  let recommendations :=
    if !ytdlp_works then
      recommendations ++
        ["Update yt-dlp to the latest version",
         "Check if your IP is rate-limited by YouTube",
         "Try using cookies if you have a YouTube account"]
    else recommendations
  recommendations

/-- The JSON body built by the `/test-youtube-access` route on its normal
path (src/main.py lines 199-204). -/
structure DiagReport where
  dns_works : Bool
  dns_msg : String
  http_works : Bool
  http_msg : String
  ytdlp_works : Bool
  ytdlp_msg : String
  recommendations : List String
deriving DecidableEq

/-- Lines 170-210 of src/main.py: the three probes of the diagnostics route.
The DNS probe, the bounded HTTP check (`works` iff status 200), and the
smoke-test extraction of the fixed reference URL using `get_ydl_opts` —
whose cookie file, when one was created, is never passed to
`cleanup_cookie_file`: no deletion event exists anywhere in this function.
`ytdlp_works` is `info is not None`, while the success message is set before
that test, so a `None` result keeps the success message. -/
def test_youtube_access (w : World) : DiagReport × List Event :=
  let dns := test_dns_resolution w
  let http : Bool × String :=
    match w.httpStatus with
    | Except.ok code => (code == 200, "HTTP connection successful: " ++ toString code)
    | Except.error e => (false, "HTTP connection failed: " ++ e)
  let go := get_ydl_opts w
  let ytdlp : Bool × String :=
    match w.extractResult with
    | Except.ok (some _) => (true, "yt-dlp working correctly")
    | Except.ok none => (false, "yt-dlp working correctly")
    | Except.error e => (false, "yt-dlp failed: " ++ e)
  ({ dns_works := dns.1, dns_msg := dns.2
     http_works := http.1, http_msg := http.2
     ytdlp_works := ytdlp.1, ytdlp_msg := ytdlp.2
     recommendations := get_troubleshooting_recommendations dns.1 http.1 ytdlp.1 },
    go.2 ++ [Event.extractorCall "https://www.youtube.com/watch?v=dQw4w9WgXcQ"])

example :
    audio_video_formats
      [{ format_id := "18", resolution := some "640x360", filesize := some 100,
         filesize_approx := none, acodec := some "mp4a", vcodec := some "avc1",
         ext := some "mp4", abr := some 96, url := "u18" },
       { format_id := "140", resolution := none, filesize := none,
         filesize_approx := some 7, acodec := some "mp4a", vcodec := some "none",
         ext := some "m4a", abr := some 129, url := "u140" }] =
      [{ format_id := "18", resolution := "640x360", filesize := some 100, url := "u18" }] := by
  decide

example :
    highest_audio_info
      [{ format_id := "139", resolution := none, filesize := none,
         filesize_approx := some 7, acodec := some "mp4a", vcodec := some "none",
         ext := some "m4a", abr := some 48, url := "u139" },
       { format_id := "140", resolution := none, filesize := some 3,
         filesize_approx := none, acodec := some "mp4a", vcodec := some "none",
         ext := some "m4a", abr := some 129, url := "u140" }] =
      some { format_id := "140", bitrate := Bitrate.num 129, filesize := some 3, url := "u140" } := by
  decide

example :
    best_thumbnail_scan
      [{ url := some "a", width := some 120 }, { url := some "b", width := some 480 },
       { url := some "c", width := some 480 }] = (some "b", 480) := by
  decide

example : best_thumbnail_scan [{ url := some "a", width := none }] = (none, 0) := by
  decide

/-- General first-maximum fold invariant.  The fold keeps an accumulator and
replaces it with `f t` exactly when the element key `k2 t` strictly exceeds
the accumulator key: the result is either the untouched start value (when no
element beats it) or `f t` for the first element `t` attaining the strict
maximum of the keys above the start key. -/
theorem foldl_firstMax_spec {α β : Type} (k2 : α → Int) (f : α → β) (k : β → Int)
    (hk : ∀ t, k (f t) = k2 t) :
    ∀ (l : List α) (b : β),
      (l.foldl (fun acc t => if k acc < k2 t then f t else acc) b = b ∧
        ∀ t ∈ l, k2 t ≤ k b) ∨
      (∃ l1 t l2, l = l1 ++ t :: l2 ∧
        l.foldl (fun acc t => if k acc < k2 t then f t else acc) b = f t ∧
        k b < k2 t ∧ (∀ y ∈ l1, k2 y < k2 t) ∧ (∀ y ∈ l2, k2 y ≤ k2 t)) := by
  intro l
  induction l with
  | nil =>
    intro b
    exact Or.inl ⟨rfl, by simp⟩
  | cons x xs ih =>
    intro b
    rw [List.foldl_cons]
    by_cases hx : k b < k2 x
    · rw [if_pos hx]
      rcases ih (f x) with ⟨h1, h2⟩ | ⟨l1, t, l2, heq, hfold, hlt, hl1, hl2⟩
      · refine Or.inr ⟨[], x, xs, by simp, h1, hx, by simp, ?_⟩
        intro y hy
        have := h2 y hy
        rwa [hk x] at this
      · rw [hk x] at hlt
        refine Or.inr ⟨x :: l1, t, l2, by simp [heq], hfold, lt_trans hx hlt, ?_, hl2⟩
        intro y hy
        rcases List.mem_cons.mp hy with hy | hy
        · exact hy ▸ hlt
        · exact hl1 y hy
    · rw [if_neg hx]
      rcases ih b with ⟨h1, h2⟩ | ⟨l1, t, l2, heq, hfold, hlt, hl1, hl2⟩
      · refine Or.inl ⟨h1, ?_⟩
        intro y hy
        rcases List.mem_cons.mp hy with hy | hy
        · exact hy ▸ not_lt.mp hx
        · exact h2 y hy
      · refine Or.inr ⟨x :: l1, t, l2, by simp [heq], hfold, hlt, ?_, hl2⟩
        intro y hy
        rcases List.mem_cons.mp hy with hy | hy
        · exact hy ▸ lt_of_le_of_lt (not_lt.mp hx) hlt
        · exact hl1 y hy

/-- Stable-maximum characterisation of `pyMax`: an empty list gives `none`;
otherwise the result is the first element attaining the maximum key, i.e. the
list splits as `l1 ++ t :: l2` with every earlier key strictly below `key t`
and every later key at most `key t`. -/
theorem pyMax_spec {α : Type} (key : α → Int) (l : List α) :
    (l = [] ∧ pyMax key l = none) ∨
    (∃ l1 t l2, l = l1 ++ t :: l2 ∧ pyMax key l = some t ∧
      (∀ y ∈ l1, key y < key t) ∧ (∀ y ∈ l2, key y ≤ key t)) := by
  cases l with
  | nil => exact Or.inl ⟨rfl, rfl⟩
  | cons x xs =>
    apply Or.inr
    rcases foldl_firstMax_spec key (fun t => t) key (fun _ => rfl) xs x with
      ⟨h1, h2⟩ | ⟨l1, t, l2, heq, hfold, hlt, hl1, hl2⟩
    · exact ⟨[], x, xs, by simp, congrArg some h1, by simp, h2⟩
    · refine ⟨x :: l1, t, l2, by simp [heq], congrArg some hfold, ?_, hl2⟩
      intro y hy
      rcases List.mem_cons.mp hy with hy | hy
      · exact hy ▸ hlt
      · exact hl1 y hy

/-- Stable-maximum characterisation of the thumbnail scan: either no entry
has a strictly positive width (all widths default to 0 or are non-positive)
and the scan state stays `(none, 0)`, or the scan returns the URL field of the
first entry attaining the maximum (positive) width. -/
theorem best_thumbnail_scan_spec (thumbnails : List ThumbnailDescriptor) :
    ((∀ t ∈ thumbnails, t.width.getD 0 ≤ 0) ∧ best_thumbnail_scan thumbnails = (none, 0)) ∨
    (∃ l1 t l2, thumbnails = l1 ++ t :: l2 ∧
      best_thumbnail_scan thumbnails = (t.url, t.width.getD 0) ∧
      0 < t.width.getD 0 ∧
      (∀ y ∈ l1, y.width.getD 0 < t.width.getD 0) ∧
      (∀ y ∈ l2, y.width.getD 0 ≤ t.width.getD 0)) := by
  rcases foldl_firstMax_spec (fun t : ThumbnailDescriptor => t.width.getD 0)
      (fun t => (t.url, t.width.getD 0)) Prod.snd (fun _ => rfl) thumbnails
      ((none : Option String), (0 : Int)) with
    ⟨h1, h2⟩ | ⟨l1, t, l2, heq, hfold, hlt, hl1, hl2⟩
  · exact Or.inl ⟨h2, h1⟩
  · exact Or.inr ⟨l1, t, l2, heq, hfold, hlt, hl1, hl2⟩

/-- Traces concatenate through `extractorCalls`. -/
theorem extractorCalls_append (a b : List Event) :
    extractorCalls (a ++ b) = extractorCalls a ++ extractorCalls b := by
  induction a with
  | nil => rfl
  | cons e es ih => cases e <;> simp [extractorCalls, ih]

/-- Creating the cookie file performs no extractor call. -/
theorem extractorCalls_create_cookie_file (w : World) :
    extractorCalls (create_cookie_file w).2 = [] := by
  unfold create_cookie_file
  by_cases h1 : w.cookies = ""
  · simp [h1, extractorCalls]
  · by_cases h2 : w.cookieCreateOk <;> simp [h1, h2, extractorCalls]

/-- Releasing the cookie file performs no extractor call. -/
theorem extractorCalls_cleanup_cookie_file (w : World) (o : YdlOpts) :
    extractorCalls (cleanup_cookie_file w o) = [] := by
  unfold cleanup_cookie_file
  cases o.cookiefile with
  | none => rfl
  | some f => by_cases h : w.unlinkOk <;> simp [h, extractorCalls]

/-- A world with healthy DNS whose extractor yields the given raw result for
any direct URL; the search side is never consulted. -/
def extraction_world (info : VideoInfo) : World :=
  { primaryDns := Except.ok "142.250.72.206"
    altDns := Except.ok "142.250.72.206"
    proxyEnv := none
    cookies := ""
    cookieCreateOk := true
    cookieName := "cookies.txt"
    unlinkOk := true
    httpStatus := Except.ok 200
    extractResult := Except.ok (some info)
    searchResponse := fun _ => Except.error "not consulted" }

/-- A format descriptor whose `acodec` key is absent and whose `vcodec` is a
real video codec: the source filter `fmt.get('acodec') != 'none'` passes it
because `None != 'none'`. -/
def c1_fmt : FormatDescriptor :=
  { format_id := "18"
    resolution := some "640x360"
    filesize := none
    filesize_approx := none
    acodec := none
    vcodec := some "avc1.42001E"
    ext := some "mp4"
    abr := none
    url := "https://v.example/18" }

/-- Claim C1 is false as stated: a descriptor whose audio codec is absent
(not present) still appears in `combined_formats`, because the source tests
`.get('acodec') != 'none'` and an absent codec reads as `None`, which passes.
The claim predicts an empty `combined_formats` for this input. -/
theorem c1_counterexample :
    c1_fmt.acodec = none ∧
    (extract_video_info
        (extraction_world
          { title := some "T", formats := [c1_fmt], thumbnails := [], thumbnail := none })
        "https://v.example").1 =
      Except.ok
        { title := "T"
          formats := [{ format_id := "18", resolution := "640x360", filesize := none,
                        url := "https://v.example/18" }]
          highest_audio := none
          thumbnail := none } := by
  exact ⟨rfl, rfl⟩

/-- Claim C1 as amended: `combined_formats` contains exactly the descriptors
whose `acodec` and `vcodec` are both distinct from the marker `"none"` — an
absent codec passes the filter — projected to `format_id`, `resolution`
defaulted to `"N/A"` when absent, `filesize` preferring a present non-zero
exact filesize, else the approximate filesize, else null, and `url`, in the
extractor's original order. -/
theorem c1_amended (formats : List FormatDescriptor) :
    audio_video_formats formats =
      (formats.filter
        (fun fmt => decide (fmt.acodec ≠ some "none" ∧ fmt.vcodec ≠ some "none"))).map
        (fun fmt =>
          { format_id := fmt.format_id
            resolution := fmt.resolution.getD "N/A"
            filesize := pyOrInt fmt.filesize fmt.filesize_approx
            url := fmt.url }) := by
  induction formats with
  | nil => rfl
  | cons fmt rest ih =>
    by_cases hc : fmt.acodec ≠ some "none" ∧ fmt.vcodec ≠ some "none" <;>
      simp [audio_video_formats, List.filter_cons, hc] <;>
      simpa [audio_video_formats] using ih

/-- Claim C2 is false as stated: with a thumbnail list whose only entry has a
URL but no declared width, the claim says that entry (width counted as 0) is
the maximum and its URL is returned; the code only replaces its scan state on
a strictly greater width than the initial 0, so the entry is never selected
and, the default thumbnail being absent, the result is null. -/
theorem c2_counterexample :
    (extract_video_info
        (extraction_world
          { title := some "T", formats := [],
            thumbnails := [{ url := some "https://img.example/hq.jpg", width := none }],
            thumbnail := none })
        "https://v.example").1 =
      Except.ok { title := "T", formats := [], highest_audio := none, thumbnail := none } := by
  exact rfl

/-- Claim C2 as amended: the scan can only select an entry whose declared
width (defaulting to 0 when absent) is strictly positive; it selects the first
entry attaining the maximum such width and takes its URL field, which may
itself be absent.  Whenever the scan carries no URL — no entry has positive
width, or the selected entry's URL is absent or empty — the result falls back
to the default thumbnail field, and when that is also absent the thumbnail is
null. -/
theorem c2_amended (thumbnails : List ThumbnailDescriptor) (default_thumbnail : Option String) :
    ((∀ t ∈ thumbnails, t.width.getD 0 ≤ 0) ∧
      (best_thumbnail_scan thumbnails).1 = none ∧
      pyOrStr (best_thumbnail_scan thumbnails).1 default_thumbnail = default_thumbnail) ∨
    (∃ l1 t l2, thumbnails = l1 ++ t :: l2 ∧
      0 < t.width.getD 0 ∧
      (∀ y ∈ l1, y.width.getD 0 < t.width.getD 0) ∧
      (∀ y ∈ l2, y.width.getD 0 ≤ t.width.getD 0) ∧
      (best_thumbnail_scan thumbnails).1 = t.url ∧
      pyOrStr (best_thumbnail_scan thumbnails).1 default_thumbnail =
        pyOrStr t.url default_thumbnail) := by
  rcases best_thumbnail_scan_spec thumbnails with ⟨h1, h2⟩ |
    ⟨l1, t, l2, heq, hscan, hpos, hl1, hl2⟩
  · exact Or.inl ⟨h1, by rw [h2], by rw [h2]; rfl⟩
  · exact Or.inr ⟨l1, t, l2, heq, hpos, hl1, hl2, by rw [hscan], by rw [hscan]⟩

/-- An audio-only format descriptor whose `acodec` key is absent: the source
condition `fmt.get('acodec') != 'none'` passes it. -/
def c4_fmt : FormatDescriptor :=
  { format_id := "140"
    resolution := none
    filesize := none
    filesize_approx := none
    acodec := none
    vcodec := some "none"
    ext := some "m4a"
    abr := some 129
    url := "https://v.example/140" }

/-- Claim C4 is false as stated: a descriptor with an absent audio codec,
video codec `"none"` and extension m4a is selected as `best_audio` by the
code, while the claim restricts the candidate set to descriptors whose audio
codec is present and so predicts `best_audio = null` here. -/
theorem c4_counterexample :
    c4_fmt.acodec = none ∧
    (extract_video_info
        (extraction_world
          { title := some "T", formats := [c4_fmt], thumbnails := [], thumbnail := none })
        "https://v.example").1 =
      Except.ok
        { title := "T"
          formats := []
          highest_audio := some { format_id := "140", bitrate := Bitrate.num 129,
                                  filesize := none, url := "https://v.example/140" }
          thumbnail := none } := by
  exact ⟨rfl, rfl⟩

/-- Claim C4 as amended: `best_audio` is chosen among descriptors whose audio
codec is not the marker `"none"` (an absent audio codec also qualifies), whose
video codec is explicitly `"none"` and whose extension is m4a, as the first
one attaining the maximum bitrate, missing bitrates comparing as 0; an empty
qualifying set yields null rather than an error. -/
theorem c4_amended (formats : List FormatDescriptor) :
    (formats.filter isAudioCandidate = [] ∧ highest_audio_info formats = none) ∨
    (∃ l1 b l2, formats.filter isAudioCandidate = l1 ++ b :: l2 ∧
      highest_audio_info formats = some (mkAudioInfo b) ∧
      (∀ y ∈ l1, abrKey y < abrKey b) ∧ (∀ y ∈ l2, abrKey y ≤ abrKey b)) := by
  rcases pyMax_spec abrKey (formats.filter isAudioCandidate) with ⟨h1, h2⟩ |
    ⟨l1, b, l2, heq, hmax, hl1, hl2⟩
  · exact Or.inl ⟨h1, by simp [highest_audio_info, highest_audio, h2]⟩
  · exact Or.inr ⟨l1, b, l2, heq, by simp [highest_audio_info, highest_audio, hmax], hl1, hl2⟩

/-- The fixed DNS remediation block (src/main.py lines 217-222). -/
def dns_recommendation_block : List String :=
  ["Check your internet connection",
   "Try using Google DNS (8.8.8.8, 8.8.4.4) or Cloudflare DNS (1.1.1.1)",
   "Flush your DNS cache",
   "Check if you\x27re behind a firewall or proxy that blocks YouTube"]

/-- The fixed HTTP remediation block (src/main.py lines 225-229). -/
def http_recommendation_block : List String :=
  ["Check if YouTube is accessible from your location",
   "Try using a VPN if YouTube is blocked",
   "Check proxy settings if you\x27re in a corporate environment"]

/-- The fixed extractor remediation block (src/main.py lines 232-236). -/
def ytdlp_recommendation_block : List String :=
  ["Update yt-dlp to the latest version",
   "Check if your IP is rate-limited by YouTube",
   "Try using cookies if you have a YouTube account"]

/-- Claim C8: the recommendations list is a pure function of the three
boolean outcomes — the concatenation, in DNS, HTTP, extractor order, of the
fixed block of each failing dimension (4 DNS strings, 3 HTTP strings, 3
extractor strings), with no deduplication or reordering, and empty when all
three succeed. -/
theorem c8_recommendations (dns_works http_works ytdlp_works : Bool) :
    get_troubleshooting_recommendations dns_works http_works ytdlp_works =
      (if dns_works then [] else dns_recommendation_block) ++
      (if http_works then [] else http_recommendation_block) ++
      (if ytdlp_works then [] else ytdlp_recommendation_block) ∧
    dns_recommendation_block.length = 4 ∧
    http_recommendation_block.length = 3 ∧
    ytdlp_recommendation_block.length = 3 ∧
    get_troubleshooting_recommendations true true true = [] := by
  cases dns_works <;> cases http_works <;> cases ytdlp_works <;>
    exact ⟨rfl, rfl, rfl, rfl, rfl⟩

/-- Claim C9: when the selected best audio-only descriptor lacks an `abr`
field, the `bitrate` field of the returned `best_audio` is the literal string
`"Unknown"` — not the number 0 — even though the comparison key that selected
it (`x.get('abr', 0)`) treated the missing bitrate as 0. -/
theorem c9_unknown_bitrate (formats : List FormatDescriptor) (b : FormatDescriptor)
    (h1 : highest_audio formats = some b) (h2 : b.abr = none) :
    highest_audio_info formats = some (mkAudioInfo b) ∧
    (mkAudioInfo b).bitrate = Bitrate.str "Unknown" ∧
    (mkAudioInfo b).bitrate ≠ Bitrate.num 0 ∧
    abrKey b = 0 := by
  refine ⟨by simp [highest_audio_info, h1], ?_, ?_, ?_⟩ <;>
    simp [mkAudioInfo, abrKey, h2]

/-- An audio-only candidate with no `abr` field, for the C9 witness. -/
def c9_fmt : FormatDescriptor :=
  { format_id := "140"
    resolution := none
    filesize := none
    filesize_approx := none
    acodec := some "mp4a.40.2"
    vcodec := some "none"
    ext := some "m4a"
    abr := none
    url := "https://v.example/140" }

/-- Witness for C9 at a concrete one-element format list whose selected
candidate lacks `abr`. -/
theorem c9_unknown_bitrate_witness :
    highest_audio_info [c9_fmt] = some (mkAudioInfo c9_fmt) ∧
    (mkAudioInfo c9_fmt).bitrate = Bitrate.str "Unknown" ∧
    (mkAudioInfo c9_fmt).bitrate ≠ Bitrate.num 0 ∧
    abrKey c9_fmt = 0 :=
  c9_unknown_bitrate [c9_fmt] c9_fmt rfl rfl

/-- A diagnostics-route world with credential material present, parametrised
by the smoke-test outcome. -/
def diag_world (res : Except String (Option VideoInfo)) : World :=
  { primaryDns := Except.ok "142.250.72.206"
    altDns := Except.ok "142.250.72.206"
    proxyEnv := none
    cookies := "# Netscape HTTP Cookie File"
    cookieCreateOk := true
    cookieName := "/tmp/tmpa1b2c3.txt"
    unlinkOk := true
    httpStatus := Except.ok 200
    extractResult := res
    searchResponse := fun _ => Except.error "not consulted" }

/-- Claim C3 names a real cleanup obligation the diagnostics route does not
meet: whatever the smoke-test extraction returns — success, `None`, or an
exception — `test_youtube_access` creates the cookie file for its
configuration and its trace contains no deletion attempt at all, because the
function never calls `cleanup_cookie_file`. -/
theorem c3_smoke_test_never_deletes_cookie (res : Except String (Option VideoInfo)) :
    Event.cookieCreated "/tmp/tmpa1b2c3.txt" ∈ (test_youtube_access (diag_world res)).2 ∧
    ∀ f, Event.cookieDeleteAttempt f ∉ (test_youtube_access (diag_world res)).2 := by
  constructor
  · simp [test_youtube_access, diag_world, get_ydl_opts, create_cookie_file]
  · intro f
    simp [test_youtube_access, diag_world, get_ydl_opts, create_cookie_file]

/-- A world whose primary DNS probe fails with a typical resolver error. -/
def c5_world : World :=
  { primaryDns := Except.error "[Errno -3] Temporary failure in name resolution"
    altDns := Except.error "The resolution lifetime expired"
    proxyEnv := none
    cookies := ""
    cookieCreateOk := true
    cookieName := "cookies.txt"
    unlinkOk := true
    httpStatus := Except.error "would not be reached"
    extractResult := Except.error "would not be reached"
    searchResponse := fun _ => Except.error "would not be reached" }

/-- Claim C5: when the primary DNS probe fails, both `search_video_by_title`
(resolve_title) and `extract_video_info` (resolve_url) raise the 503-class
`Unavailable` error with an empty trace — in particular before any extractor
call is attempted. -/
theorem c5_dns_gate (w : World) (title url e : String)
    (h : w.primaryDns = Except.error e) :
    (search_video_by_title w title).1 = Except.error (ApiError.unavailable
      ("DNS resolution failed for YouTube: " ++ ("DNS resolution failed: " ++ e) ++
        ". Please check your network connection or DNS settings.")) ∧
    (search_video_by_title w title).2 = [] ∧
    extractorCalls (search_video_by_title w title).2 = [] ∧
    (extract_video_info w url).1 = Except.error (ApiError.unavailable
      ("DNS resolution failed: " ++ ("DNS resolution failed: " ++ e))) ∧
    (extract_video_info w url).2 = [] ∧
    extractorCalls (extract_video_info w url).2 = [] := by
  have hd : test_dns_resolution w = (false, "DNS resolution failed: " ++ e) := by
    simp [test_dns_resolution, h]
  refine ⟨?_, ?_, ?_, ?_, ?_, ?_⟩ <;>
    simp [search_video_by_title, extract_video_info, hd, extractorCalls]

/-- Witness for C5 at a concrete failed-DNS world. -/
theorem c5_dns_gate_witness :
    (search_video_by_title c5_world "lofi hip hop radio").1 =
      Except.error (ApiError.unavailable
        ("DNS resolution failed for YouTube: " ++
          ("DNS resolution failed: " ++ "[Errno -3] Temporary failure in name resolution") ++
          ". Please check your network connection or DNS settings.")) ∧
    (search_video_by_title c5_world "lofi hip hop radio").2 = [] ∧
    extractorCalls (search_video_by_title c5_world "lofi hip hop radio").2 = [] ∧
    (extract_video_info c5_world "https://v.example").1 =
      Except.error (ApiError.unavailable
        ("DNS resolution failed: " ++
          ("DNS resolution failed: " ++ "[Errno -3] Temporary failure in name resolution"))) ∧
    (extract_video_info c5_world "https://v.example").2 = [] ∧
    extractorCalls (extract_video_info c5_world "https://v.example").2 = [] :=
  c5_dns_gate c5_world "lofi hip hop radio" "https://v.example"
    "[Errno -3] Temporary failure in name resolution" rfl

/-- Claim C6: under healthy DNS, resolve_title makes at most two extractor
calls, in the fixed narrow-then-broad order; it returns the first entry's URL
value at the first attempt whose response is usable (non-empty entries list
whose first entry carries a `'url'` key), an exception or unusable response
just moves to the next variant, and only after both variants fail does it
raise the 404-class `NotFound` error. -/
theorem c6_cascade (w : World) (title : String)
    (h : (test_dns_resolution w).1 = true) :
    (extractorCalls (search_video_by_title w title).2).length ≤ 2 ∧
    (match attempt_success (w.searchResponse ("ytsearch1:" ++ title)),
           attempt_success (w.searchResponse ("ytsearch5:" ++ title)) with
     | some v, _ =>
       (search_video_by_title w title).1 = Except.ok v ∧
       extractorCalls (search_video_by_title w title).2 = ["ytsearch1:" ++ title]
     | none, some v =>
       (search_video_by_title w title).1 = Except.ok v ∧
       extractorCalls (search_video_by_title w title).2 =
         ["ytsearch1:" ++ title, "ytsearch5:" ++ title]
     | none, none =>
       (search_video_by_title w title).1 = Except.error (ApiError.notFound
         ("No videos found for \x27" ++ title ++
           "\x27. This might be due to network issues or the video not existing.")) ∧
       extractorCalls (search_video_by_title w title).2 =
         ["ytsearch1:" ++ title, "ytsearch5:" ++ title]) := by
  rcases hd : test_dns_resolution w with ⟨b, m⟩
  rw [hd] at h
  simp only at h
  subst h
  rcases h1 : attempt_success (w.searchResponse ("ytsearch1:" ++ title)) with _ | v1 <;>
    rcases h2 : attempt_success (w.searchResponse ("ytsearch5:" ++ title)) with _ | v2 <;>
    refine ⟨?_, ?_⟩ <;>
    simp [search_video_by_title, hd, search_loop, search_queries, h1, h2,
          extractorCalls_append, extractorCalls_cleanup_cookie_file,
          extractorCalls_create_cookie_file, get_ydl_opts, extractorCalls]

/-- A usable broad-search response: one entry carrying a URL. -/
def c6_hit : SearchDict :=
  { entries := some [some { url := some (some "https://www.youtube.com/watch?v=jfKfPfyJRdk") }] }

/-- A world where the narrow search variant raises (rate limit) and the broad
variant returns `c6_hit`. -/
def c6_world : World :=
  { primaryDns := Except.ok "142.250.72.206"
    altDns := Except.ok "142.250.72.206"
    proxyEnv := none
    cookies := ""
    cookieCreateOk := true
    cookieName := "cookies.txt"
    unlinkOk := true
    httpStatus := Except.ok 200
    extractResult := Except.error "not consulted"
    searchResponse := fun q =>
      if q = "ytsearch5:lofi hip hop radio" then Except.ok (some c6_hit)
      else Except.error "HTTP Error 429: Too Many Requests" }

/-- Witness for C6: first variant raises, second succeeds, so the call count
is exactly two and the second variant's first URL is returned. -/
theorem c6_cascade_witness :
    (extractorCalls (search_video_by_title c6_world "lofi hip hop radio").2).length ≤ 2 ∧
    ((search_video_by_title c6_world "lofi hip hop radio").1 =
        Except.ok (some "https://www.youtube.com/watch?v=jfKfPfyJRdk") ∧
      extractorCalls (search_video_by_title c6_world "lofi hip hop radio").2 =
        ["ytsearch1:" ++ "lofi hip hop radio", "ytsearch5:" ++ "lofi hip hop radio"]) := by
  have h := c6_cascade c6_world "lofi hip hop radio" rfl
  have e1 : attempt_success (c6_world.searchResponse ("ytsearch1:" ++ "lofi hip hop radio")) =
      none := by decide
  have e2 : attempt_success (c6_world.searchResponse ("ytsearch5:" ++ "lofi hip hop radio")) =
      some (some "https://www.youtube.com/watch?v=jfKfPfyJRdk") := by decide
  rw [e1, e2] at h
  exact h

/-- A world where both resolver layers fail. -/
def c7_world : World :=
  { primaryDns := Except.error "[Errno -2] Name or service not known"
    altDns := Except.error "The DNS operation timed out"
    proxyEnv := none
    cookies := ""
    cookieCreateOk := true
    cookieName := "cookies.txt"
    unlinkOk := true
    httpStatus := Except.error "not consulted"
    extractResult := Except.error "not consulted"
    searchResponse := fun _ => Except.error "not consulted" }

/-- Claim C7: neither probe lets a resolver-layer failure escape — both are
total functions of the world here precisely because the source catches the
resolver exception — and on failure each returns the pair with first
component `false` and a message carrying the underlying error text. -/
theorem c7_probes (w : World) (e1 e2 : String)
    (h1 : w.primaryDns = Except.error e1) (h2 : w.altDns = Except.error e2) :
    test_dns_resolution w = (false, "DNS resolution failed: " ++ e1) ∧
    try_alternative_dns w = (false, "Alternative DNS failed: " ++ e2) := by
  simp [test_dns_resolution, try_alternative_dns, h1, h2]

/-- Witness for C7 at a concrete world where both resolvers fail. -/
theorem c7_probes_witness :
    test_dns_resolution c7_world =
      (false, "DNS resolution failed: " ++ "[Errno -2] Name or service not known") ∧
    try_alternative_dns c7_world =
      (false, "Alternative DNS failed: " ++ "The DNS operation timed out") :=
  c7_probes c7_world "[Errno -2] Name or service not known" "The DNS operation timed out" rfl rfl

/-- A world whose narrow search variant returns one entry that carries a
`'url'` key with an explicit `None` value. -/
def c10_world : World :=
  { primaryDns := Except.ok "142.250.72.206"
    altDns := Except.ok "142.250.72.206"
    proxyEnv := none
    cookies := ""
    cookieCreateOk := true
    cookieName := "cookies.txt"
    unlinkOk := true
    httpStatus := Except.ok 200
    extractResult := Except.error "not consulted"
    searchResponse := fun q =>
      if q = "ytsearch1:lofi hip hop radio" then
        Except.ok (some { entries := some [some { url := some none }] })
      else Except.error "should not be reached" }

/-- Claim C10: the success test only checks that the `'url'` key is present,
so a first entry whose `'url'` value is `None` makes resolve_title return
null as the resolved URL after the single narrow call — it neither tries the
broad variant nor fails with `NotFound`. -/
theorem c10_null_url :
    (search_video_by_title c10_world "lofi hip hop radio").1 = Except.ok none ∧
    extractorCalls (search_video_by_title c10_world "lofi hip hop radio").2 =
      ["ytsearch1:lofi hip hop radio"] := by
  exact ⟨rfl, rfl⟩
